import Mathlib

/-!
Verification development for the `mod-mmap` repository: a shallow embedding
of the columnar store (`src/columnar/column.rs`, `schema.rs`, `query.rs`),
the alignment utilities (`src/utils/alignment.rs`) and the zero-size checks
of the mapping facade (`src/mmap.rs`), together with theorems settling the
specification's claims about them.

Conventions of the embedding:
* bytes are `Nat` values `< 256`; byte buffers are `List Nat`;
* Rust `u64`/`usize` arithmetic is `Nat` with explicit `% 2^64` where the
  source can wrap (release semantics);
* fallible Rust methods returning `Result` are modelled by result types
  that distinguish an `Ok` return, an `Err` return, and a panic;
* a `&str` argument is modelled by its UTF-8 byte list; an `f32`/`f64`
  argument is modelled by the `Nat` whose little-endian bytes are exactly
  the output of `to_le_bytes` (the bit pattern), which is all the column
  code ever inspects.
-/

set_option maxRecDepth 4000

/-- Model of `DataType` from `src/columnar/schema.rs`. -/
inductive DataType where
  | boolean
  | int8
  | uint8
  | int16
  | uint16
  | int32
  | uint32
  | int64
  | uint64
  | float32
  | float64
  | string
  | binary
  | date
  | timestamp
  | fixedBinary (size : Nat)
  | decimal (precision scale : Nat)
  deriving DecidableEq, Repr

/-- Model of `DataType::size` from `src/columnar/schema.rs`. -/
def DataType.size : DataType → Option Nat
  | .boolean => some 1
  | .int8 => some 1
  | .uint8 => some 1
  | .int16 => some 2
  | .uint16 => some 2
  | .int32 => some 4
  | .uint32 => some 4
  | .int64 => some 8
  | .uint64 => some 8
  | .float32 => some 4
  | .float64 => some 8
  | .string => none
  | .binary => none
  | .date => some 4
  | .timestamp => some 8
  | .fixedBinary size => some size
  | .decimal _ _ => some 16

/-- Model of `DataType::is_variable_length` from `src/columnar/schema.rs`. -/
def DataType.is_variable_length : DataType → Bool
  | .string => true
  | .binary => true
  | _ => false

/-- Model of `Field` from `src/columnar/schema.rs` (the default value bytes and the
string metadata are carried verbatim; no column code reads them). -/
structure FieldDef where
  name : String
  data_type : DataType
  nullable : Bool
  default_value : Option (List Nat)
  metadata : List (String × String)
  deriving DecidableEq, Repr

/-- Model of `Field::new` from `src/columnar/schema.rs`. -/
def FieldDef.new (name : String) (data_type : DataType) (nullable : Bool) : FieldDef :=
  { name := name, data_type := data_type, nullable := nullable,
    default_value := none, metadata := [] }

/-- Model of `CompressionType` from `src/columnar/compression.rs`
(discriminants 0, 1, 2, 3). -/
inductive CompressionType where
  | none
  | lz4
  | zstd
  | snappy
  deriving DecidableEq, Repr

/-- The `as u32` cast of a `CompressionType` discriminant. -/
def CompressionType.toU32 : CompressionType → Nat
  | .none => 0
  | .lz4 => 1
  | .zstd => 2
  | .snappy => 3

/-- The inverse direction of `transmute::<u32, CompressionType>` used by
`Column::open`; an out-of-range discriminant is undefined behaviour in the
source, modelled as `Option.none`. -/
def u32ToCompression : Nat → Option CompressionType
  | 0 => some CompressionType.none
  | 1 => some CompressionType.lz4
  | 2 => some CompressionType.zstd
  | 3 => some CompressionType.snappy
  | _ => Option.none

/-- Model of `ColumnBuilder` from `src/columnar/column.rs`: the field, the three
growable buffers (`data` and `null_bitmap` as bytes, `offsets` as `u64`
values) and the row count. -/
structure ColumnBuilder where
  field : FieldDef
  data : List Nat
  null_bitmap : List Nat
  offsets : List Nat
  row_count : Nat
  compression : CompressionType
  deriving DecidableEq, Repr

/-- Model of `ColumnBuilder::new` from `src/columnar/column.rs`. -/
def ColumnBuilder.new (field : FieldDef) (compression : CompressionType) : ColumnBuilder :=
  { field := field, data := [], null_bitmap := [], offsets := [],
    row_count := 0, compression := compression }

/-- Outcome of one `&mut self` append call: an `Ok(())` return with the
updated builder, an `Err(InvalidArgument)` return with the builder as the
method left it, or a panic (unwinding, not a `Result`). -/
inductive AppendResult where
  | ok (b : ColumnBuilder)
  | err (b : ColumnBuilder)
  | panicked
  deriving DecidableEq, Repr

/-- Little-endian byte encoding of `value` on `n` bytes
(`to_le_bytes` in the source). -/
def leBytes (n value : Nat) : List Nat :=
  (List.range n).map (fun i => value / 256 ^ i % 256)

/-- Two's-complement encoding of a signed integer on `bits` bits, as the
unsigned value Rust's `as`-cast / `to_le_bytes` works with. -/
def toUnsigned (bits : Nat) (v : Int) : Nat :=
  (v % (2 ^ bits : Nat)).toNat

/-- Model of `ColumnBuilder::append_null` from `src/columnar/column.rs`.  The source
pushes at most one byte onto the bitmap and then indexes
`self.null_bitmap[byte_index]`; when `byte_index` is still out of range
this indexing panics. -/
def ColumnBuilder.append_null (b : ColumnBuilder) : AppendResult :=
  if !b.field.nullable then
    .err b
  else
    let byte_index := b.row_count / 8
    let bit_index := b.row_count % 8
    let bm := if b.null_bitmap.length ≤ byte_index then b.null_bitmap ++ [0] else b.null_bitmap
    if byte_index < bm.length then
      let bm2 := bm.set byte_index (bm.getD byte_index 0 ||| (1 <<< bit_index))
      if b.field.data_type.is_variable_length then
        let current_offset := b.offsets.getLastD 0
        .ok { b with null_bitmap := bm2, offsets := b.offsets ++ [current_offset],
                     row_count := b.row_count + 1 }
      else
        match b.field.data_type.size with
        | some size =>
            .ok { b with null_bitmap := bm2,
                         data := b.data ++ List.replicate size 0,
                         row_count := b.row_count + 1 }
        | Option.none =>
            .ok { b with null_bitmap := bm2, row_count := b.row_count + 1 }
    else
      .panicked

/-- Model of `ColumnBuilder::append_bool`. -/
def ColumnBuilder.append_bool (b : ColumnBuilder) (value : Bool) : AppendResult :=
  if b.field.data_type = .boolean then
    .ok { b with data := b.data ++ [if value then 1 else 0], row_count := b.row_count + 1 }
  else
    .err b

/-- Model of `ColumnBuilder::append_i8` (`value as u8` is the two's-complement byte). -/
def ColumnBuilder.append_i8 (b : ColumnBuilder) (value : Int) : AppendResult :=
  if b.field.data_type = .int8 then
    .ok { b with data := b.data ++ [toUnsigned 8 value], row_count := b.row_count + 1 }
  else
    .err b

/-- Model of `ColumnBuilder::append_u8`. -/
def ColumnBuilder.append_u8 (b : ColumnBuilder) (value : Nat) : AppendResult :=
  if b.field.data_type = .uint8 then
    .ok { b with data := b.data ++ [value], row_count := b.row_count + 1 }
  else
    .err b

/-- Model of `ColumnBuilder::append_i16`. -/
def ColumnBuilder.append_i16 (b : ColumnBuilder) (value : Int) : AppendResult :=
  if b.field.data_type = .int16 then
    .ok { b with data := b.data ++ leBytes 2 (toUnsigned 16 value),
                 row_count := b.row_count + 1 }
  else
    .err b

/-- Model of `ColumnBuilder::append_u16`. -/
def ColumnBuilder.append_u16 (b : ColumnBuilder) (value : Nat) : AppendResult :=
  if b.field.data_type = .uint16 then
    .ok { b with data := b.data ++ leBytes 2 value, row_count := b.row_count + 1 }
  else
    .err b

/-- Model of `ColumnBuilder::append_i32`. -/
def ColumnBuilder.append_i32 (b : ColumnBuilder) (value : Int) : AppendResult :=
  if b.field.data_type = .int32 then
    .ok { b with data := b.data ++ leBytes 4 (toUnsigned 32 value),
                 row_count := b.row_count + 1 }
  else
    .err b

/-- Model of `ColumnBuilder::append_u32`. -/
def ColumnBuilder.append_u32 (b : ColumnBuilder) (value : Nat) : AppendResult :=
  if b.field.data_type = .uint32 then
    .ok { b with data := b.data ++ leBytes 4 value, row_count := b.row_count + 1 }
  else
    .err b

/-- Model of `ColumnBuilder::append_i64`. -/
def ColumnBuilder.append_i64 (b : ColumnBuilder) (value : Int) : AppendResult :=
  if b.field.data_type = .int64 then
    .ok { b with data := b.data ++ leBytes 8 (toUnsigned 64 value),
                 row_count := b.row_count + 1 }
  else
    .err b

/-- Model of `ColumnBuilder::append_u64`. -/
def ColumnBuilder.append_u64 (b : ColumnBuilder) (value : Nat) : AppendResult :=
  if b.field.data_type = .uint64 then
    .ok { b with data := b.data ++ leBytes 8 value, row_count := b.row_count + 1 }
  else
    .err b

/-- Model of `ColumnBuilder::append_f32` (`value` is the 32-bit pattern whose
little-endian bytes are `to_le_bytes` of the float). -/
def ColumnBuilder.append_f32 (b : ColumnBuilder) (value : Nat) : AppendResult :=
  if b.field.data_type = .float32 then
    .ok { b with data := b.data ++ leBytes 4 value, row_count := b.row_count + 1 }
  else
    .err b

/-- Model of `ColumnBuilder::append_f64` (64-bit pattern, see `append_f32`). -/
def ColumnBuilder.append_f64 (b : ColumnBuilder) (value : Nat) : AppendResult :=
  if b.field.data_type = .float64 then
    .ok { b with data := b.data ++ leBytes 8 value, row_count := b.row_count + 1 }
  else
    .err b

/-- Model of `ColumnBuilder::append_string` (`value` is the UTF-8 byte list of the
`&str` argument; `current_offset` is the last pushed offset or 0). -/
def ColumnBuilder.append_string (b : ColumnBuilder) (value : List Nat) : AppendResult :=
  if b.field.data_type = .string then
    let current_offset := b.offsets.getLastD 0
    .ok { b with data := b.data ++ value,
                 offsets := b.offsets ++ [current_offset + value.length],
                 row_count := b.row_count + 1 }
  else
    .err b

/-- Model of `ColumnBuilder::append_binary`. -/
def ColumnBuilder.append_binary (b : ColumnBuilder) (value : List Nat) : AppendResult :=
  match b.field.data_type with
  | .binary =>
      let current_offset := b.offsets.getLastD 0
      .ok { b with data := b.data ++ value,
                   offsets := b.offsets ++ [current_offset + value.length],
                   row_count := b.row_count + 1 }
  | .fixedBinary size =>
      if value.length ≠ size then
        .err b
      else
        .ok { b with data := b.data ++ value, row_count := b.row_count + 1 }
  | _ => .err b

/-- Model of `ColumnBuilder::append_date`. -/
def ColumnBuilder.append_date (b : ColumnBuilder) (value : Int) : AppendResult :=
  if b.field.data_type = .date then
    .ok { b with data := b.data ++ leBytes 4 (toUnsigned 32 value),
                 row_count := b.row_count + 1 }
  else
    .err b

/-- Model of `ColumnBuilder::append_timestamp`. -/
def ColumnBuilder.append_timestamp (b : ColumnBuilder) (value : Int) : AppendResult :=
  if b.field.data_type = .timestamp then
    .ok { b with data := b.data ++ leBytes 8 (toUnsigned 64 value),
                 row_count := b.row_count + 1 }
  else
    .err b

/-- The magic bytes `b"ULTRACOL"`. -/
def magicBytes : List Nat := [0x55, 0x4C, 0x54, 0x52, 0x41, 0x43, 0x4F, 0x4C]

/-- Model of `ColumnHeader::data_type_to_u32` from `src/columnar/column.rs`
(`u32` arithmetic, so shifted parameters wrap modulo `2^32`). -/
def data_type_to_u32 : DataType → Nat
  | .boolean => 1
  | .int8 => 2
  | .uint8 => 3
  | .int16 => 4
  | .uint16 => 5
  | .int32 => 6
  | .uint32 => 7
  | .int64 => 8
  | .uint64 => 9
  | .float32 => 10
  | .float64 => 11
  | .string => 12
  | .binary => 13
  | .date => 14
  | .timestamp => 15
  | .fixedBinary size => 16 ||| (size % 2 ^ 32) <<< 8 % 2 ^ 32
  | .decimal precision scale =>
      17 ||| (precision % 2 ^ 32) <<< 8 % 2 ^ 32 ||| (scale % 2 ^ 32) <<< 16 % 2 ^ 32

/-- Model of `ColumnHeader::u32_to_data_type` from `src/columnar/column.rs`;
`Option.none` is the `panic!("Invalid data type value")` arm. -/
def u32_to_data_type (value : Nat) : Option DataType :=
  match value % 256 with
  | 1 => some .boolean
  | 2 => some .int8
  | 3 => some .uint8
  | 4 => some .int16
  | 5 => some .uint16
  | 6 => some .int32
  | 7 => some .uint32
  | 8 => some .int64
  | 9 => some .uint64
  | 10 => some .float32
  | 11 => some .float64
  | 12 => some .string
  | 13 => some .binary
  | 14 => some .date
  | 15 => some .timestamp
  | 16 => some (.fixedBinary (value >>> 8))
  | 17 => some (.decimal (value >>> 8 &&& 0xFF) (value >>> 16 &&& 0xFF))
  | _ => Option.none

/-- Byte serialization of `ColumnHeader` under `repr(C)` on a 64-bit
target: 112 bytes, with padding bytes (offsets 12..16, 29..32, 36..40,
written here as zero; `Column::open` never reads them) between the fields.
`data_type_u32` is the already-encoded `u32` tag. -/
def headerBytesRaw (row_count data_type_u32 : Nat) (nullable : Bool)
    (compression_u32 data_offset data_size null_bitmap_offset null_bitmap_size
     offsets_offset offsets_size : Nat) : List Nat :=
  magicBytes ++ leBytes 4 1 ++ [0, 0, 0, 0] ++ leBytes 8 row_count ++
  leBytes 4 data_type_u32 ++ [if nullable then 1 else 0] ++ [0, 0, 0] ++
  leBytes 4 compression_u32 ++ [0, 0, 0, 0] ++
  leBytes 8 data_offset ++ leBytes 8 data_size ++
  leBytes 8 null_bitmap_offset ++ leBytes 8 null_bitmap_size ++
  leBytes 8 offsets_offset ++ leBytes 8 offsets_size ++ List.replicate 24 0

/-- The null bitmap size computed by `ColumnBuilder::write_to_file`:
`(row_count + 7) / 8` when the field is nullable, else 0. -/
def ColumnBuilder.null_bitmap_size_calc (b : ColumnBuilder) : Nat :=
  if b.field.nullable then (b.row_count + 7) / 8 else 0

/-- The offsets-section size computed by `ColumnBuilder::write_to_file`:
`(row_count + 1) * 8` for variable-length types, else 0. -/
def ColumnBuilder.offsets_size_calc (b : ColumnBuilder) : Nat :=
  if b.field.data_type.is_variable_length then (b.row_count + 1) * 8 else 0

/-- The bytes `ColumnBuilder::write_to_file` emits for the offsets section:
each stored offset as little-endian `u64` (`offset.to_le_bytes()`), written
only when `offsets_size > 0`. -/
def ColumnBuilder.offsetsSectionBytes (b : ColumnBuilder) : List Nat :=
  if b.offsets_size_calc > 0 then (b.offsets.map (leBytes 8)).flatten else []

/-- Model of `ColumnBuilder::write_to_file` from `src/columnar/column.rs`, returning
the byte content of the created file: header, then the builder's
`null_bitmap` buffer if a bitmap section was declared, then the offsets
section, then the `data` buffer. -/
def ColumnBuilder.write_to_file (b : ColumnBuilder) : List Nat :=
  let header_size := 112
  let null_bitmap_size := b.null_bitmap_size_calc
  let null_bitmap_offset := if null_bitmap_size > 0 then header_size else 0
  let offsets_size := b.offsets_size_calc
  let offsets_offset := if offsets_size > 0 then header_size + null_bitmap_size else 0
  let data_offset := header_size + null_bitmap_size + offsets_size
  headerBytesRaw b.row_count (data_type_to_u32 b.field.data_type) b.field.nullable
      b.compression.toU32 data_offset b.data.length null_bitmap_offset
      null_bitmap_size offsets_offset offsets_size ++
    (if null_bitmap_size > 0 then b.null_bitmap else []) ++
    b.offsetsSectionBytes ++ b.data

/-- A byte read through the read-only mapping of a column file.  Reads past
the end of the file but inside the mapped page observe the kernel's zero
fill; every concrete file in this development is smaller than one page, so
the default 0 is exactly what the source reads there. -/
def readByte (file : List Nat) (i : Nat) : Nat :=
  file.getD i 0

/-- Little-endian read of `n` bytes at byte offset `off` of the mapping. -/
def readLE (file : List Nat) (off n : Nat) : Nat :=
  ((List.range n).map (fun i => readByte file (off + i) * 256 ^ i)).sum

/-- Model of `Column` from `src/columnar/column.rs`: the mapped file together with
the derived field definition and the section pointers (kept as byte
offsets, with a flag recording whether the source pointer is null). -/
structure Column where
  field : FieldDef
  file : List Nat
  data_offset : Nat
  null_bitmap_present : Bool
  null_bitmap_offset : Nat
  offsets_present : Bool
  offsets_offset : Nat
  compression : CompressionType
  deriving DecidableEq, Repr

/-- Outcome of `Column::open`: an `Ok` column, an `Err(InvalidArgument)`
return, or a crash (the `panic!` in `u32_to_data_type`, or the undefined
behaviour of `transmute` on an out-of-range compression tag). -/
inductive OpenResult where
  | ok (c : Column)
  | invalidArg
  | crashed
  deriving DecidableEq, Repr

def OpenResult.isOk : OpenResult → Bool
  | .ok _ => true
  | _ => false

def OpenResult.isInvalidArg : OpenResult → Bool
  | .invalidArg => true
  | _ => false

/-- Model of `Column::open` from `src/columnar/column.rs`, taking the mapped file
bytes.  The source checks only the file size and the magic; it then builds
the section pointers from the header and converts the type and compression
tags (either conversion can crash on unrecognized tags). -/
def Column.open (file : List Nat) : OpenResult :=
  if file.length < 112 then
    .invalidArg
  else if file.take 8 ≠ magicBytes then
    .invalidArg
  else
    let nullable := readByte file 28 ≠ 0
    match u32_to_data_type (readLE file 24 4), u32ToCompression (readLE file 32 4) with
    | some data_type, some compression =>
        .ok { field := FieldDef.new "column" data_type nullable
              file := file
              data_offset := readLE file 40 8
              null_bitmap_present := nullable
              null_bitmap_offset := readLE file 56 8
              offsets_present := readLE file 80 8 > 0
              offsets_offset := readLE file 72 8
              compression := compression }
    | _, _ => .crashed

/-- Model of `Column::row_count`: reads the header field through the mapping. -/
def Column.row_count (c : Column) : Nat :=
  readLE c.file 16 8

/-- Model of `Column::is_null` from `src/columnar/column.rs`. -/
def Column.is_null (c : Column) (row_index : Nat) : Bool :=
  if !c.field.nullable || !c.null_bitmap_present then
    false
  else
    readByte c.file (c.null_bitmap_offset + row_index / 8) &&& 1 <<< (row_index % 8) ≠ 0

/-- Model of `Column::get_u8` from `src/columnar/column.rs`. -/
def Column.get_u8 (c : Column) (row_index : Nat) : Option Nat :=
  if c.is_null row_index then
    Option.none
  else if c.field.data_type = .uint8 then
    some (readByte c.file (c.data_offset + row_index))
  else
    Option.none

/-- Slice `[off, off + len)` of the mapping. -/
def readSlice (file : List Nat) (off len : Nat) : List Nat :=
  (List.range len).map (fun j => readByte file (off + j))

/-- Model of `Column::get_binary` from `src/columnar/column.rs`, restricted to the
`Binary` tag path through `get_bytes` (the only path the theorems below
evaluate): element `i` spans `[offsets[i], offsets[i+1])` of the data
section; the `u64` length subtraction wraps modulo `2^64`. -/
def Column.get_binary (c : Column) (row_index : Nat) : Option (List Nat) :=
  if c.is_null row_index then
    Option.none
  else if c.field.data_type = .binary then
    if !c.offsets_present then
      Option.none
    else
      let start_offset := readLE c.file (c.offsets_offset + row_index * 8) 8
      let end_offset := readLE c.file (c.offsets_offset + (row_index + 1) * 8) 8
      some (readSlice c.file (c.data_offset + start_offset)
        ((end_offset + 2 ^ 64 - start_offset) % 2 ^ 64))
  else
    Option.none

/-- Observation helper: the reopened column's `row_count()` when the open
succeeded. -/
def OpenResult.openedRowCount : OpenResult → Option Nat
  | .ok c => some c.row_count
  | _ => Option.none

/-- Observation helper: the reopened column's `get_u8(i)` when the open
succeeded. -/
def OpenResult.openedGetU8 : OpenResult → Nat → Option (Option Nat)
  | .ok c, i => some (c.get_u8 i)
  | _, _ => Option.none

/-- The builder state after `append_u8(1)` on a fresh nullable `UInt8`
builder (note the `null_bitmap` buffer stays empty: typed appends never
grow it). -/
def c1_builder : ColumnBuilder :=
  { field := FieldDef.new "column" .uint8 true, data := [1], null_bitmap := [],
    offsets := [], row_count := 1, compression := CompressionType.none }

/-- The file written for that builder. -/
def c1_file : List Nat := c1_builder.write_to_file

/-- C1: the round-trip law fails in the code.  On a nullable `UInt8` column
a single successful `append_u8(1)` produces a builder whose bitmap buffer
is empty; `write_to_file` nevertheless declares `null_bitmap_size = 1`, so
the written file is one byte shorter than the header's layout and the data
byte 1 is located where the header says the bitmap lives.  Reopening
succeeds and the header still reports `row_count = 1`, but `get_u8(0)`
reads the data byte as a set null bit and returns `None` instead of
`Some(1)`. -/
theorem C1_roundtrip_fails :
    (ColumnBuilder.new (FieldDef.new "column" .uint8 true) CompressionType.none).append_u8 1 =
      AppendResult.ok c1_builder ∧
    c1_file.length = 113 ∧
    (Column.open c1_file).openedRowCount = some 1 ∧
    (Column.open c1_file).openedGetU8 0 = some Option.none := by
  decide

/-- The builder state after `append_string("ab")` on a fresh non-nullable
`String` builder: `offsets` holds the single running end offset 2. -/
def c2_builder : ColumnBuilder :=
  { field := FieldDef.new "column" .string false, data := [97, 98], null_bitmap := [],
    offsets := [2], row_count := 1, compression := CompressionType.none }

/-- C2: the serialized offsets section is wrong in the code.  After one
successful append of the two-byte string "ab", `write_to_file` emits the
builder's `offsets` vector verbatim: a single little-endian `u64` with
value 2 — 8 bytes, starting with 2 rather than 0 and with no final
terminator — while the header declares `offsets_size = (1 + 1) * 8 = 16`.
So the section has `n` entries instead of `n + 1`, does not begin with 0,
and its byte length differs from the header's `offsets_size`. -/
theorem C2_offsets_section_fails :
    (ColumnBuilder.new (FieldDef.new "column" .string false) CompressionType.none).append_string
        [97, 98] = AppendResult.ok c2_builder ∧
    c2_builder.offsetsSectionBytes = leBytes 8 2 ∧
    c2_builder.offsetsSectionBytes.length = 8 ∧
    c2_builder.offsets_size_calc = 16 ∧
    readLE c2_builder.write_to_file 112 8 = 2 := by
  decide

/-- A 112-byte file with valid magic, version 1, `UInt8` tag, no bitmap and
no offsets, whose header claims `data_offset = 112` and `data_size = 100`:
`data_offset + data_size = 212` exceeds the 112-byte file size. -/
def c3_file : List Nat := headerBytesRaw 0 3 false 0 112 100 0 0 0 0

/-- C3 counterexample: `Column::open` accepts a file whose header violates
`data_offset + data_size ≤ file_size`, so the claimed validation list is
not enforced — only the size and magic checks exist. -/
theorem C3_counterexample_open_accepts_bad_sizes :
    (Column.open c3_file).isOk = true ∧
    c3_file.length = 112 ∧
    readLE c3_file 40 8 + readLE c3_file 48 8 = 212 := by
  decide

/-- C3 amended: `Column::open` returns an invalid-argument error exactly
when the file is shorter than the 112-byte header or the magic differs
from `ULTRACOL`; version, section bounds, null-bitmap size and offsets
size are not validated (an unrecognized type or compression tag crashes
instead of returning an error). -/
theorem C3_open_invalid_iff_small_or_bad_magic (file : List Nat) :
    (Column.open file).isInvalidArg =
      (decide (file.length < 112) || decide (file.take 8 ≠ magicBytes)) := by
  unfold Column.open
  split
  · simp_all [OpenResult.isInvalidArg]
  · split
    · simp_all [OpenResult.isInvalidArg]
    · split <;> simp_all [OpenResult.isInvalidArg]

/-- A 112-byte file with valid magic whose data-type tag has primary kind 0
(not among the defined tags 1–17). -/
def c7_file : List Nat := headerBytesRaw 0 0 false 0 112 0 0 0 0 0

/-- C7: opening a file with an unrecognized primary type kind does not
return an invalid-argument result; `u32_to_data_type` panics
(`panic!("Invalid data type value")`), so this failure path unwinds
instead of returning a `Result`. -/
theorem C7_bad_tag_panics_instead_of_erroring :
    Column.open c7_file = OpenResult.crashed ∧
    (Column.open c7_file).isInvalidArg = false ∧
    c7_file.length = 112 ∧
    c7_file.take 8 = magicBytes := by
  decide

/-- The row loop of `Query::execute` from `src/columnar/query.rs`, abstracted
over the per-row predicate outcome (`self.predicate.evaluate(&self.table, i)`
is a pure function of the row index once the table and predicate are fixed)
and returning the emitted row indices (each emitted result row is a pure
function of its row index).  For each row: if the predicate holds, the row
is skipped when `row_index < offset`; otherwise it is emitted, the emission
counter incremented, and the loop breaks when `count >= limit`. -/
def Query.executeRows (pred : Nat → Bool) (offset : Nat) (limit : Option Nat) :
    List Nat → Nat → List Nat
  | [], _ => []
  | i :: rest, count =>
    if pred i then
      if i < offset then
        Query.executeRows pred offset limit rest count
      else
        match limit with
        | some l =>
            if count + 1 ≥ l then [i]
            else i :: Query.executeRows pred offset limit rest (count + 1)
        | Option.none => i :: Query.executeRows pred offset limit rest (count + 1)
    else
      Query.executeRows pred offset limit rest count

/-- Model of `Query::execute` from `src/columnar/query.rs`: walk rows
`0..row_count` with emission counter starting at 0. -/
def Query.execute (row_count : Nat) (pred : Nat → Bool) (offset : Nat)
    (limit : Option Nat) : List Nat :=
  Query.executeRows pred offset limit (List.range row_count) 0

/-- The spec's offset semantics, written from the spec's words: the
matching rows with the first `offset` MATCHES dropped. -/
def specMatchesAfterSkip (row_count : Nat) (pred : Nat → Bool) (offset : Nat) : List Nat :=
  ((List.range row_count).filter pred).drop offset

/-- C4 counterexample: two rows, only row 1 matches, `offset = 1`.  The
offset is compared against the row index, not the match count: the single
match is emitted even though the spec semantics (skip the first 1 match)
returns nothing, and even though `offset ≥` the number of matches. -/
theorem C4_counterexample_offset_counts_row_indices :
    Query.execute 2 (fun i => i == 1) 1 Option.none = [1] ∧
    specMatchesAfterSkip 2 (fun i => i == 1) 1 = [] ∧
    Query.execute 2 (fun i => i == 1) 1 Option.none ≠
      specMatchesAfterSkip 2 (fun i => i == 1) 1 := by
  decide

theorem Query.executeRows_none_eq_filter (pred : Nat → Bool) (offset : Nat)
    (l : List Nat) (count : Nat) :
    Query.executeRows pred offset Option.none l count =
      l.filter (fun i => pred i && decide (offset ≤ i)) := by
  induction l generalizing count with
  | nil => rfl
  | cons i rest ih =>
    simp only [Query.executeRows, List.filter_cons]
    by_cases hp : pred i
    · by_cases ho : i < offset
      · have : ¬ offset ≤ i := by omega
        simp [hp, ho, this, ih]
      · have : offset ≤ i := by omega
        simp [hp, ho, this, ih]
    · simp [hp, ih]

theorem Query.executeRows_all_below_offset (pred : Nat → Bool) (offset : Nat)
    (limit : Option Nat) (l : List Nat) (count : Nat)
    (h : ∀ i ∈ l, i < offset) : Query.executeRows pred offset limit l count = [] := by
  induction l generalizing count with
  | nil => rfl
  | cons i rest ih =>
    have hi : i < offset := h i (by simp)
    have hrest : ∀ j ∈ rest, j < offset := fun j hj => h j (by simp [hj])
    simp only [Query.executeRows]
    by_cases hp : pred i
    · simp [hp, hi, ih _ hrest]
    · simp [hp, ih _ hrest]

/-- C4 amended: `offset` skips matching rows whose ROW INDEX is below
`offset`, not the first `offset` matches.  Without a limit the result is
exactly the matching rows with index `≥ offset`; and a query whose offset
is `≥ row_count` (rather than `≥` the number of matches) returns zero
rows, for any limit. -/
theorem C4_offset_skips_by_row_index (row_count : Nat) (pred : Nat → Bool)
    (offset : Nat) :
    Query.execute row_count pred offset Option.none =
      (List.range row_count).filter (fun i => pred i && decide (offset ≤ i)) ∧
    ∀ limit : Option Nat, row_count ≤ offset →
      Query.execute row_count pred offset limit = [] := by
  constructor
  · exact Query.executeRows_none_eq_filter pred offset (List.range row_count) 0
  · intro limit h
    apply Query.executeRows_all_below_offset
    intro i hi
    have : i < row_count := List.mem_range.mp hi
    omega

theorem C4_offset_skips_by_row_index_witness :
    (2 ≤ 5) ∧ Query.execute 2 (fun i => i == 1) 5 (some 3) = [] :=
  ⟨by decide, (C4_offset_skips_by_row_index 2 (fun i => i == 1) 5).2 (some 3) (by decide)⟩

/-- C5 counterexample: one row, predicate always true, `limit = 0`.  The
limit check `count >= limit` runs only AFTER a row is pushed, so a query
with `limit = 0` returns one row, not zero rows. -/
theorem C5_counterexample_limit_zero_returns_a_row :
    Query.execute 1 (fun _ => true) 0 (some 0) = [0] ∧
    (Query.execute 1 (fun _ => true) 0 (some 0)).length ≠ 0 := by
  decide

theorem Query.executeRows_length_le (pred : Nat → Bool) (offset l' : Nat)
    (l : List Nat) (count : Nat) :
    (Query.executeRows pred offset (some l') l count).length ≤ max (l' - count) 1 := by
  induction l generalizing count with
  | nil => simp [Query.executeRows]
  | cons i rest ih =>
    simp only [Query.executeRows]
    by_cases hp : pred i
    · by_cases ho : i < offset
      · simpa [hp, ho] using ih count
      · by_cases hl : count + 1 ≥ l'
        · simp [hp, ho, hl]
        · have := ih (count + 1)
          rw [if_pos hp, if_neg ho, if_neg hl]
          rw [List.length_cons]
          omega
    · simpa [hp] using ih count

/-- C5 amended: with `limit = L` the query emits at most `max L 1` rows —
at most `L` rows whenever `L ≥ 1`, but `limit = 0` behaves like
`limit = 1` because the `count >= limit` check runs after the push. -/
theorem C5_limit_bounds_emissions (row_count : Nat) (pred : Nat → Bool)
    (offset l' : Nat) :
    (Query.execute row_count pred offset (some l')).length ≤ max l' 1 ∧
    (1 ≤ l' → (Query.execute row_count pred offset (some l')).length ≤ l') := by
  have h := Query.executeRows_length_le pred offset l' (List.range row_count) 0
  constructor
  · simpa using h
  · intro hl
    have : max (l' - 0) 1 = l' := by omega
    rw [this] at h
    exact h

theorem C5_limit_bounds_emissions_witness :
    (1 ≤ 2) ∧ (Query.execute 3 (fun _ => true) 0 (some 2)).length ≤ 2 :=
  ⟨by decide, (C5_limit_bounds_emissions 3 (fun _ => true) 0 2).2 (by decide)⟩

/-- Model of `Schema` from `src/columnar/schema.rs`.  The `HashMap<String, usize>`
`field_indices` is embedded as the partial function it denotes (the map's
observable behaviour); `insert` replaces any existing binding. -/
structure Schema where
  fields : List FieldDef
  field_indices : String → Option Nat
  metadata : List (String × String)

/-- One `field_indices.insert(field.name.clone(), i)` step of
`Schema::new`, on the partial-function embedding of the map. -/
def insertIndex (m : String → Option Nat) (p : Nat × FieldDef) : String → Option Nat :=
  fun name => if name = p.2.name then some p.1 else m name

/-- Model of `Schema::new` from `src/columnar/schema.rs`: for each `(i, field)` of
the enumerated field list, insert `field.name → i`.  There is no duplicate
check and no error return. -/
def Schema.new (fields : List FieldDef) : Schema :=
  { fields := fields
    field_indices := (fields.enum).foldl insertIndex (fun _ => Option.none)
    metadata := [] }

/-- Spec-side helper: the index of the LAST field named `name`, counting
from `i0`. -/
def lastIndexOfFrom (i0 : Nat) (name : String) : List FieldDef → Option Nat
  | [] => Option.none
  | f :: rest =>
    match lastIndexOfFrom (i0 + 1) name rest with
    | some j => some j
    | Option.none => if f.name = name then some i0 else Option.none

/-- Two fields that share the name "a". -/
def c6_fields : List FieldDef :=
  [FieldDef.new "a" .uint8 false, FieldDef.new "a" .int8 false]

/-- C6 counterexample: `Schema::new` happily constructs a schema with two
fields of the same name (it cannot reject anything: it returns `Self`, not
a `Result`), and `field_indices` maps the duplicated name to the LAST
duplicate's index. -/
theorem C6_counterexample_duplicate_names_accepted :
    (Schema.new c6_fields).fields.length = 2 ∧
    (Schema.new c6_fields).field_indices "a" = some 1 := by
  constructor
  · rfl
  · rfl

theorem Schema.foldl_insert_get (fs : List FieldDef) (i0 : Nat)
    (m : String → Option Nat) (name : String) :
    ((List.enumFrom i0 fs).foldl insertIndex m) name =
      match lastIndexOfFrom i0 name fs with
      | some j => some j
      | Option.none => m name := by
  induction fs generalizing i0 m with
  | nil => rfl
  | cons f rest ih =>
    have hstep : List.enumFrom i0 (f :: rest) = (i0, f) :: List.enumFrom (i0 + 1) rest := rfl
    rw [hstep, List.foldl_cons, ih]
    simp only [lastIndexOfFrom]
    cases lastIndexOfFrom (i0 + 1) name rest with
    | some j => rfl
    | none =>
      by_cases h : f.name = name
      · simp [insertIndex, h]
      · have h2 : ¬ name = f.name := fun hh => h hh.symm
        simp [insertIndex, h, h2]

/-- C6 amended: `Schema::new` never rejects its input — the constructed
schema keeps the field list as given, duplicates included — and
`field_indices` maps each name to the index of the LAST field carrying
that name (for a schema with unique names this is the index of the unique
field; `Option.none` for absent names). -/
theorem C6_schema_new_maps_to_last_index (fields : List FieldDef) (name : String) :
    (Schema.new fields).fields = fields ∧
    (Schema.new fields).field_indices name = lastIndexOfFrom 0 name fields := by
  refine ⟨rfl, ?_⟩
  have h : (Schema.new fields).field_indices =
      (List.enumFrom 0 fields).foldl insertIndex (fun _ => Option.none) := rfl
  rw [h, Schema.foldl_insert_get]
  cases lastIndexOfFrom 0 name fields <;> rfl

/-- Model of `align_up` from `src/utils/alignment.rs`:
`(value + align - 1) & !(align - 1)` on `usize`.  In release mode the
addition wraps modulo `2^64`; bitwise not of `y` on 64 bits is
`(2^64 - 1) - y`. -/
def align_up (value align : Nat) : Nat :=
  ((value + align - 1) % 2 ^ 64) &&& ((2 ^ 64 - 1) - (align - 1))

/-- C8 counterexample: at `x = 2^64 - 1` (a valid `usize`) and the power
of two `a = 2`, the wrapped sum is 0 and `align_up` returns 0, so
`align_up(x, a) ≥ x` fails under the machine-word semantics the claim
itself stipulates. -/
theorem C8_counterexample_align_up_not_monotone :
    align_up (2 ^ 64 - 1) 2 = 0 ∧ ¬(2 ^ 64 - 1 ≤ align_up (2 ^ 64 - 1) 2) := by
  decide

theorem land_two_pow_mask (s k : Nat) (hs : s < 2 ^ 64) (hk : k ≤ 64) :
    s &&& (2 ^ 64 - 2 ^ k) = s - s % 2 ^ k := by
  have hpow : (2:Nat) ^ k * 2 ^ (64 - k) = 2 ^ 64 := by
    rw [← pow_add]
    congr 1
    omega
  have hone : (1:Nat) ≤ 2 ^ (64 - k) := Nat.one_le_two_pow
  have hfact : (2:Nat) ^ 64 - 2 ^ k = 2 ^ k * (2 ^ (64 - k) - 1) := by
    have hsplit : (2:Nat) ^ k * ((2 ^ (64 - k) - 1) + 1) =
        2 ^ k * (2 ^ (64 - k) - 1) + 2 ^ k * 1 := Nat.mul_add _ _ _
    have heq : (2:Nat) ^ (64 - k) - 1 + 1 = 2 ^ (64 - k) := by omega
    rw [heq] at hsplit
    omega
  have hdiv : s - s % 2 ^ k = 2 ^ k * (s >>> k) := by
    rw [Nat.shiftRight_eq_div_pow]
    have := Nat.div_add_mod s (2 ^ k)
    omega
  rw [hfact, hdiv]
  apply Nat.eq_of_testBit_eq
  intro i
  rw [Nat.testBit_and, Nat.testBit_mul_pow_two, Nat.testBit_mul_pow_two,
    Nat.testBit_shiftRight, Nat.testBit_two_pow_sub_one]
  by_cases hik : k ≤ i
  · have hki : k + (i - k) = i := by omega
    rw [hki]
    by_cases hi64 : i < 64
    · have h1 : i - k < 64 - k := by omega
      simp [hik, h1, Bool.and_comm]
    · have hbound : s < 2 ^ i :=
        lt_of_lt_of_le hs (Nat.pow_le_pow_right (by norm_num) (by omega))
      have hfalse : s.testBit i = false := Nat.testBit_lt_two_pow hbound
      have h1 : ¬(i - k < 64 - k) := by omega
      simp [hik, h1, hfalse]
  · simp [hik]

theorem align_up_eq_sub_mod (x k : Nat) (hk : k ≤ 64) :
    align_up x (2 ^ k) =
      ((x + 2 ^ k - 1) % 2 ^ 64) - ((x + 2 ^ k - 1) % 2 ^ 64) % 2 ^ k := by
  unfold align_up
  have hone : (1:Nat) ≤ 2 ^ k := Nat.one_le_two_pow
  have hle : (2:Nat) ^ k ≤ 2 ^ 64 := Nat.pow_le_pow_right (by norm_num) hk
  have hmask : (2:Nat) ^ 64 - 1 - (2 ^ k - 1) = 2 ^ 64 - 2 ^ k := by omega
  rw [hmask]
  exact land_two_pow_mask _ k (Nat.mod_lt _ (Nat.two_pow_pos 64)) hk

/-- C8 amended: for every `usize` alignment `a = 2^k` and every `x` for
which the `x + a - 1` sum does not wrap (the counterexample shows
`align_up(x, a) ≥ x` fails when it wraps), all four claimed properties
hold: `align_up(x, a) mod a = 0`, `align_up(x, a) ≥ x`,
`align_up(x, a) - x < a`, and idempotence. -/
theorem C8_align_up_props (x k : Nat) (hk : k ≤ 63) (hov : x + 2 ^ k - 1 < 2 ^ 64) :
    align_up x (2 ^ k) % 2 ^ k = 0 ∧
    x ≤ align_up x (2 ^ k) ∧
    align_up x (2 ^ k) - x < 2 ^ k ∧
    align_up (align_up x (2 ^ k)) (2 ^ k) = align_up x (2 ^ k) := by
  have hk64 : k ≤ 64 := by omega
  have hone : (1:Nat) ≤ 2 ^ k := Nat.one_le_two_pow
  have hchar := align_up_eq_sub_mod x k hk64
  rw [Nat.mod_eq_of_lt hov] at hchar
  have hrlt : (x + 2 ^ k - 1) % 2 ^ k < 2 ^ k := Nat.mod_lt _ (Nat.two_pow_pos k)
  have hdm := Nat.div_add_mod (x + 2 ^ k - 1) (2 ^ k)
  have hmulform : align_up x (2 ^ k) = 2 ^ k * ((x + 2 ^ k - 1) / 2 ^ k) := by omega
  have hmod : align_up x (2 ^ k) % 2 ^ k = 0 := by
    rw [hmulform]
    exact Nat.mul_mod_right _ _
  refine ⟨hmod, by omega, by omega, ?_⟩
  have hpow : (2:Nat) ^ k * 2 ^ (64 - k) = 2 ^ 64 := by
    rw [← pow_add]
    congr 1
    omega
  have hdivlt : (x + 2 ^ k - 1) / 2 ^ k < 2 ^ (64 - k) :=
    Nat.div_lt_of_lt_mul (by omega)
  have hsucc : (x + 2 ^ k - 1) / 2 ^ k + 1 ≤ 2 ^ (64 - k) := hdivlt
  have hmul_le : 2 ^ k * ((x + 2 ^ k - 1) / 2 ^ k + 1) ≤ 2 ^ k * 2 ^ (64 - k) :=
    Nat.mul_le_mul_left _ hsucc
  have hmul_add : 2 ^ k * ((x + 2 ^ k - 1) / 2 ^ k + 1) =
      2 ^ k * ((x + 2 ^ k - 1) / 2 ^ k) + 2 ^ k * 1 := Nat.mul_add _ _ _
  have hov2 : align_up x (2 ^ k) + 2 ^ k - 1 < 2 ^ 64 := by omega
  have hchar2 := align_up_eq_sub_mod (align_up x (2 ^ k)) k hk64
  rw [Nat.mod_eq_of_lt hov2] at hchar2
  have hsplit : align_up x (2 ^ k) + 2 ^ k - 1 = align_up x (2 ^ k) + (2 ^ k - 1) := by
    omega
  have ht : (2 ^ k - 1) % 2 ^ k = 2 ^ k - 1 := Nat.mod_eq_of_lt (by omega)
  have hmod2 : (align_up x (2 ^ k) + (2 ^ k - 1)) % 2 ^ k = 2 ^ k - 1 := by
    rw [Nat.add_mod, hmod, ht, Nat.zero_add, ht]
  rw [hsplit, hmod2] at hchar2
  omega

theorem C8_align_up_props_witness :
    ((2 ≤ 63) ∧ 5 + 2 ^ 2 - 1 < 2 ^ 64) ∧
    (align_up 5 (2 ^ 2) % 2 ^ 2 = 0 ∧
     5 ≤ align_up 5 (2 ^ 2) ∧
     align_up 5 (2 ^ 2) - 5 < 2 ^ 2 ∧
     align_up (align_up 5 (2 ^ 2)) (2 ^ 2) = align_up 5 (2 ^ 2)) :=
  ⟨⟨by decide, by decide⟩, C8_align_up_props 5 2 (by decide) (by decide)⟩

/-- The fields of `MmapOptions` (`src/mmap.rs`) that the length-validation
logic reads: the starting offset and the optional explicit length.  The
remaining option fields are passed through to the platform call unchanged
and never influence whether that call is reached. -/
structure MmapOptions where
  offset : Nat
  len : Option Nat
  deriving DecidableEq, Repr

/-- Model of `MmapOptions::new` / `Default`: offset 0, no explicit length. -/
def MmapOptions.new : MmapOptions :=
  { offset := 0, len := Option.none }

/-- How far a mapping request got: an early `Err` before any platform
call, or the platform mapping call with the length it received. -/
inductive MapAttempt where
  | zeroSized
  | invalidArg
  | platformFile (offset len : Nat)
  | platformAnon (len : Nat)
  deriving DecidableEq, Repr

/-- Model of `MmapOptions::map_impl` from `src/mmap.rs`, up to the
`platform::map_file` call: an explicit length of 0 is rejected as
`ZeroSizedMapping`; with no explicit length the file length is used as is
(`metadata.len().try_into()` cannot fail on a 64-bit target) — with NO
zero check. -/
def MmapOptions.map_impl (opts : MmapOptions) (file_len : Nat) : MapAttempt :=
  match opts.len with
  | some l => if l = 0 then .zeroSized else .platformFile opts.offset l
  | Option.none => .platformFile opts.offset file_len

/-- Model of `MmapOptions::map_anon_impl` from `src/mmap.rs`: a missing length is
`InvalidArgument`, a zero length is `ZeroSizedMapping`, otherwise
`platform::map_anon` is called. -/
def MmapOptions.map_anon_impl (opts : MmapOptions) : MapAttempt :=
  match opts.len with
  | Option.none => .invalidArg
  | some l => if l = 0 then .zeroSized else .platformAnon l

/-- Model of `MmapOptions::map_anon(len)`: sets `len = Some(len)` and delegates.
(`map` and `map_mut` delegate to `map_impl` without touching `len`.) -/
def MmapOptions.map_anon (opts : MmapOptions) (len : Nat) : MapAttempt :=
  MmapOptions.map_anon_impl { opts with len := some len }

/-- C9: the explicit-length paths do reject zero before any platform call
(`map`/`map_mut` with `len(0)`, and `map_anon(0)`), but a file-backed map
with NO explicit length over a zero-length file slips through:
`map_impl` reaches `platform::map_file` with length 0 instead of
returning `ZeroSizedMapping`. -/
theorem C9_zero_file_reaches_platform_call :
    MmapOptions.new.map_impl 0 = MapAttempt.platformFile 0 0 ∧
    MmapOptions.new.map_impl 0 ≠ MapAttempt.zeroSized ∧
    ({ MmapOptions.new with len := some 0 }).map_impl 5 = MapAttempt.zeroSized ∧
    MmapOptions.new.map_anon 0 = MapAttempt.zeroSized := by
  decide

/-- C10: every append method of `ColumnBuilder` is atomic on an `Err`
return — whenever a call returns `Err(InvalidArgument)` (type mismatch,
non-nullable violation, or wrong fixed-binary length), the builder it
leaves behind is exactly the builder it started from: data, null bitmap,
offsets and row count are all unchanged. -/
theorem C10_append_error_atomicity :
    (∀ b c, ColumnBuilder.append_null b = AppendResult.err c → c = b) ∧
    (∀ b v c, ColumnBuilder.append_bool b v = AppendResult.err c → c = b) ∧
    (∀ b v c, ColumnBuilder.append_i8 b v = AppendResult.err c → c = b) ∧
    (∀ b v c, ColumnBuilder.append_u8 b v = AppendResult.err c → c = b) ∧
    (∀ b v c, ColumnBuilder.append_i16 b v = AppendResult.err c → c = b) ∧
    (∀ b v c, ColumnBuilder.append_u16 b v = AppendResult.err c → c = b) ∧
    (∀ b v c, ColumnBuilder.append_i32 b v = AppendResult.err c → c = b) ∧
    (∀ b v c, ColumnBuilder.append_u32 b v = AppendResult.err c → c = b) ∧
    (∀ b v c, ColumnBuilder.append_i64 b v = AppendResult.err c → c = b) ∧
    (∀ b v c, ColumnBuilder.append_u64 b v = AppendResult.err c → c = b) ∧
    (∀ b v c, ColumnBuilder.append_f32 b v = AppendResult.err c → c = b) ∧
    (∀ b v c, ColumnBuilder.append_f64 b v = AppendResult.err c → c = b) ∧
    (∀ b v c, ColumnBuilder.append_string b v = AppendResult.err c → c = b) ∧
    (∀ b v c, ColumnBuilder.append_binary b v = AppendResult.err c → c = b) ∧
    (∀ b v c, ColumnBuilder.append_date b v = AppendResult.err c → c = b) ∧
    (∀ b v c, ColumnBuilder.append_timestamp b v = AppendResult.err c → c = b) := by
  refine ⟨?_, ?_, ?_, ?_, ?_, ?_, ?_, ?_, ?_, ?_, ?_, ?_, ?_, ?_, ?_, ?_⟩
  · intro b c h
    rw [ColumnBuilder.append_null] at h
    by_cases hn : (!b.field.nullable) = true
    · rw [if_pos hn] at h
      cases h
      rfl
    · rw [if_neg hn] at h
      dsimp only at h
      by_cases h2 : b.row_count / 8 <
          (if b.null_bitmap.length ≤ b.row_count / 8 then b.null_bitmap ++ [0]
            else b.null_bitmap).length
      · rw [if_pos h2] at h
        repeat' split at h
        all_goals exact AppendResult.noConfusion h
      · rw [if_neg h2] at h
        exact AppendResult.noConfusion h
  all_goals
    intro b v c h
    first
      | (unfold ColumnBuilder.append_bool at h) | (unfold ColumnBuilder.append_i8 at h)
      | (unfold ColumnBuilder.append_u8 at h) | (unfold ColumnBuilder.append_i16 at h)
      | (unfold ColumnBuilder.append_u16 at h) | (unfold ColumnBuilder.append_i32 at h)
      | (unfold ColumnBuilder.append_u32 at h) | (unfold ColumnBuilder.append_i64 at h)
      | (unfold ColumnBuilder.append_u64 at h) | (unfold ColumnBuilder.append_f32 at h)
      | (unfold ColumnBuilder.append_f64 at h) | (unfold ColumnBuilder.append_string at h)
      | (unfold ColumnBuilder.append_binary at h) | (unfold ColumnBuilder.append_date at h)
      | (unfold ColumnBuilder.append_timestamp at h)
    repeat' split at h
    all_goals cases h <;> rfl

/-- A fresh non-nullable boolean builder (so `append_null` and every
non-boolean typed append are rejected). -/
def c10_bool_builder : ColumnBuilder :=
  ColumnBuilder.new (FieldDef.new "c" .boolean false) CompressionType.none

/-- A fresh `FixedBinary(2)` builder. -/
def c10_fixed_builder : ColumnBuilder :=
  ColumnBuilder.new (FieldDef.new "c" (.fixedBinary 2) false) CompressionType.none

theorem C10_append_error_atomicity_witness :
    c10_bool_builder.append_null = AppendResult.err c10_bool_builder ∧
    c10_bool_builder.append_u8 7 = AppendResult.err c10_bool_builder ∧
    c10_fixed_builder.append_binary [1, 2, 3] = AppendResult.err c10_fixed_builder ∧
    c10_bool_builder = c10_bool_builder ∧
    c10_fixed_builder = c10_fixed_builder :=
  ⟨by decide, by decide, by decide,
    C10_append_error_atomicity.1 c10_bool_builder c10_bool_builder (by decide),
    (C10_append_error_atomicity.2.2.2.2.2.2.2.2.2.2.2.2.2.1) c10_fixed_builder [1, 2, 3]
      c10_fixed_builder (by decide)⟩
